import Mathlib

/-!
# Verification of the turn pipeline and session-lifecycle engine

Shallow embedding of the jem-it-indaba-chatbot game engine:

* `src/app/config.py` — game constants,
* `src/app/ai_game/hackmerlin_prompts.py` / `hackmerlin_filters.py` — input filter,
* `src/app/ai_game/nodes/*.py` — the HackMerlin workflow nodes,
* `src/app/postgres_store.py` — durable session store operations,
* `src/app/services/game_service.py` — inbound message dispatch,
* `src/app/level_configs.py` — static level table.

Timestamps are modelled as integers (seconds); `datetime` subtraction and
comparison in the source are linear-order operations, faithfully represented
on `Int`.  External LLM calls are modelled by explicit outcome parameters
(`Except` / dedicated outcome types) so that every exception branch of the
source is a constructor.
-/

namespace Indaba

/-! ## Configuration (src/app/config.py) -/

/-- `Config.MAX_LEVELS` -/
def MAX_LEVELS : Nat := 5

/-- `Config.SESSION_TIMEOUT_MINUTES` (session expires after 3 minutes). -/
def SESSION_TIMEOUT_MINUTES : Nat := 3

/-- `Config.SESSION_WARNING_MINUTES` (warning after 2 minutes). -/
def SESSION_WARNING_MINUTES : Nat := 2

/-! ## Level table (src/app/level_configs.py, src/app/ai_game/context.py)

`load_game_context` reads `level_config.get("min_length", 5)`; an unknown
level falls back to the level-1 configuration. -/

/-- `min_length` entries of `LEVEL_CONFIGS`, with `load_game_context`'s
fallback to the level-1 value for an unknown level. -/
def min_input_length (level : Nat) : Nat :=
  match level with
  | 1 => 5
  | 2 => 8
  | 3 => 10
  | 4 => 12
  | 5 => 15
  | _ => 5

/-! ## Input filter (src/app/ai_game/hackmerlin_prompts.py lines 181-197,
src/app/ai_game/hackmerlin_filters.py lines 13-28) -/

/-- `get_input_filter_words(level)`: banned words per level; empty for
levels 1-3. -/
def get_input_filter_words (level : Nat) : List String :=
  if level < 4 then
    []
  else if level = 4 then
    ["free", "complimentary", "gift"]
  else
    ["free", "complimentary", "gift", "r0", "giveaway", "prize", "win", "reward"]

/-- Python `needle` prefix test on character lists (used to model `in`). -/
def starts_with : List Char → List Char → Bool
  | [], _ => true
  | _ :: _, [] => false
  | a :: as, b :: bs => a == b && starts_with as bs

/-- Python substring containment `needle in haystack` on character lists. -/
def contains_sub (needle : List Char) : List Char → Bool
  | [] => needle.isEmpty
  | c :: t => starts_with needle (c :: t) || contains_sub needle t

/-- `check_input_filter(message, level)`: lowercases the message and blocks
it when any banned word of the level occurs as a substring. -/
def check_input_filter (message : String) (level : Nat) : Bool :=
  let banned_words := get_input_filter_words level
  if banned_words.isEmpty then
    false
  else
    let message_lower := message.data.map Char.toLower
    banned_words.any (fun word => contains_sub word.data message_lower)

/-! ## Session data model (src/app/postgres_store.py, src/app/models.py)

A `game_messages` row and a `game_users` row together with its message
history (`UserState`).  Timestamps are seconds as `Int`. -/

/-- One `game_messages` row. -/
structure Message where
  role : String
  content : String
  timestamp : Int
  level : Nat
  deriving Repr, DecidableEq

/-- One `game_users` row together with its ordered message history
(as returned by `PostgresStore.get_user_state`). -/
structure UserState where
  phone_number : String
  level : Nat
  won : Bool
  attempts : Nat
  created_at : Int
  last_active : Int
  session_started_at : Int
  session_warned : Bool
  session_expired : Bool
  messages : List Message
  deriving Repr, DecidableEq

/-- One `game_winners` row. -/
structure Winner where
  phone_number : String
  completed_at : Int
  total_attempts : Nat
  time_taken_seconds : Int
  rank : Nat
  deriving Repr, DecidableEq

/-- The store contents relevant to the claims: the `game_users` rows (with
their messages) and the `game_winners` rows, in insertion order. -/
structure StoreState where
  users : List UserState
  winners : List Winner
  deriving Repr, DecidableEq

/-! ## Per-user store operations (src/app/postgres_store.py) -/

/-- `PostgresStore.create_new_user`: fresh row at level 1. -/
def create_new_user (phone : String) (now : Int) : UserState :=
  { phone_number := phone
    level := 1
    won := false
    attempts := 0
    created_at := now
    last_active := now
    session_started_at := now
    session_warned := false
    session_expired := false
    messages := [] }

/-- Effect of `PostgresStore.add_message` on the user's row: append the
message (recorded at the user's current level), update `last_active`, and
for a user-role message increment `attempts` and clear `session_warned`. -/
def add_message (s : UserState) (role content : String) (now : Int) : UserState :=
  let s1 := { s with
    messages := s.messages ++ [{ role := role, content := content, timestamp := now, level := s.level }],
    last_active := now }
  if role == "user" then
    { s1 with attempts := s1.attempts + 1, session_warned := false }
  else
    s1

/-- Row effect of `PostgresStore.update_level`. -/
def update_level (s : UserState) (new_level : Nat) (now : Int) : UserState :=
  { s with level := new_level, last_active := now }

/-- Row effect of `PostgresStore.mark_as_won` on the user (the winner-table
effect is modelled separately on `StoreState`): sets `won`, updates
`last_active`, leaves `level` untouched. -/
def mark_as_won_user (s : UserState) (now : Int) : UserState :=
  { s with won := true, last_active := now }

/-- `PostgresStore.start_new_session`: resets the lifecycle window fields
only. -/
def start_new_session (s : UserState) (now : Int) : UserState :=
  { s with
    session_started_at := now
    last_active := now
    session_warned := false
    session_expired := false }

/-- `PostgresStore.mark_session_warned`. -/
def mark_session_warned (s : UserState) : UserState :=
  { s with session_warned := true }

/-- `PostgresStore.get_inactive_users_for_warning(minutes)`: selects users
with `last_active < now - minutes` and `last_active >= now - SESSION_TIMEOUT`
and `session_warned == False` and `won == False`, returning their phone
numbers.  (The source computes both thresholds from `datetime.now()`;
a single `now` stands for both calls.) -/
def get_inactive_users_for_warning (users : List UserState) (now : Int)
    (minutes : Nat) : List String :=
  let threshold : Int := now - minutes * 60
  let timeout_threshold : Int := now - SESSION_TIMEOUT_MINUTES * 60
  (users.filter (fun u =>
    decide (u.last_active < threshold) &&
    decide (timeout_threshold ≤ u.last_active) &&
    !u.session_warned &&
    !u.won)).map (fun u => u.phone_number)

/-! ## Store-level winner recording (src/app/postgres_store.py lines 316-358) -/

/-- SQLAlchemy row update keyed on the primary key `phone_number`. -/
def replace_user (users : List UserState) (phone : String) (u' : UserState) :
    List UserState :=
  users.map (fun v => if v.phone_number == phone then u' else v)

/-- `PostgresStore.mark_as_won` on the whole store: returns the new store
and the boolean result.  Missing user: `False`, no change.  Otherwise set
`won`/`last_active` on the user and, only when no `game_winners` row exists
for the phone, insert one with `rank = (number of existing winners) + 1`. -/
def mark_as_won (st : StoreState) (phone : String) (now : Int) :
    StoreState × Bool :=
  match st.users.find? (fun v => v.phone_number == phone) with
  | none => (st, false)
  | some u =>
    let u' := mark_as_won_user u now
    let users' := replace_user st.users phone u'
    match st.winners.find? (fun w => w.phone_number == phone) with
    | some _ => ({ users := users', winners := st.winners }, true)
    | none =>
      let time_taken : Int := now - u.created_at
      let w : Winner :=
        { phone_number := phone
          completed_at := now
          total_attempts := u.attempts
          time_taken_seconds := time_taken
          rank := st.winners.length + 1 }
      ({ users := users', winners := st.winners ++ [w] }, true)

/-! ## Session expiry check (src/app/services/game_service.py lines 160-164)

`(now - user_state.last_active).total_seconds() / 60 >= SESSION_TIMEOUT_MINUTES`,
with the division carried out in `ℚ` as in Python float division. -/

/-- `GameService._is_session_expired`. -/
def is_session_expired (s : UserState) (now : Int) : Bool :=
  decide ((((now - s.last_active : Int) : ℚ) / 60) ≥ (SESSION_TIMEOUT_MINUTES : ℚ))

/-! ## Inbound message dispatch (src/app/services/game_service.py lines 29-59)

`process_user_message` branches on exactly three conditions: unknown user,
expired session, otherwise the AI game workflow.  No other branch exists. -/

/-- The three handlers `process_user_message` can dispatch to. -/
inductive TurnHandling where
  | handleNewUser
  | handleSessionExpired
  | processAiGame
  deriving Repr, DecidableEq

/-- Branch selection of `GameService.process_user_message`. -/
def process_user_message_dispatch (user_state : Option UserState) (now : Int) :
    TurnHandling :=
  match user_state with
  | none => .handleNewUser
  | some s =>
    if is_session_expired s now then .handleSessionExpired
    else .processAiGame

/-! ## LangGraph game state (src/app/ai_game/state.py)

Fields an update dict may or may not contain are `Option`-valued; merging a
node's returned dict overrides exactly the keys it contains. -/

/-- Dynamic `AIGameState` (the fields the claims touch), plus the
`guardian_response` key that `self_evaluation_node` reads: no field of the
schema and no node ever writes that key. -/
structure AIGameState where
  messages : List String
  current_level : Option Nat
  won_level : Option Bool
  won_game : Option Bool
  sales_bot_response : Option String
  guardian_response : Option String
  workflow_step : Option String
  whatsapp_ready : Option Bool
  deriving Repr, DecidableEq

/-! ## Sales conversation node (src/app/ai_game/nodes/sales_conversation_node.py) -/

/-- The partial state update returned by `sales_conversation_node`, plus a
flag recording whether `model.invoke` (response generation) was reached. -/
structure SalesUpdate where
  workflow_step : String
  sales_bot_response : Option String
  won_level : Option Bool
  whatsapp_ready : Bool
  generationInvoked : Bool
  deriving Repr, DecidableEq

/-- `sales_conversation_node`: empty history short-circuits; then the input
filter on the last message; only then is the Kimi model invoked (its outcome
is the `kimi` parameter: `.error` for a raised exception). -/
def sales_conversation_node (messages : List String) (level : Nat)
    (kimi : Except String String) : SalesUpdate :=
  if messages.isEmpty then
    { workflow_step := "no_message_error"
      sales_bot_response := none
      won_level := some false
      whatsapp_ready := true
      generationInvoked := false }
  else if check_input_filter (messages.getLastD "") level then
    { workflow_step := "input_blocked"
      sales_bot_response := none
      won_level := some false
      whatsapp_ready := true
      generationInvoked := false }
  else
    match kimi with
    | .error _ =>
      { workflow_step := "conversation_error"
        sales_bot_response := none
        won_level := some false
        whatsapp_ready := true
        generationInvoked := true }
    | .ok kimi_text =>
      { workflow_step := "sales_conversation_complete"
        sales_bot_response := some kimi_text
        won_level := none
        whatsapp_ready := false
        generationInvoked := true }

/-- LangGraph merge of a `sales_conversation_node` update into the state:
only keys present in the returned dict are overridden; `guardian_response`
is never among them. -/
def applySalesUpdate (st : AIGameState) (u : SalesUpdate) : AIGameState :=
  { st with
    workflow_step := some u.workflow_step
    sales_bot_response :=
      match u.sales_bot_response with
      | some t => some t
      | none => st.sales_bot_response
    won_level :=
      match u.won_level with
      | some b => some b
      | none => st.won_level
    whatsapp_ready := some u.whatsapp_ready }

/-! ## Self-evaluation node (src/app/ai_game/nodes/self_evaluation_node.py) -/

/-- Outcome of the judge call in `self_evaluation_node`: a successful
invoke-and-parse yielding `agreed_to_free_phone` (missing keys default to
`false` inside `.ok`), or any raised exception (network error, timeout,
`json.loads` failure) caught by the single `except` clause. -/
inductive JudgeOutcome where
  | ok (agreed : Bool)
  | exn (msg : String)
  deriving Repr, DecidableEq

/-- The partial state update returned by `self_evaluation_node`. -/
structure SelfEvalUpdate where
  workflow_step : String
  won_level : Bool
  deriving Repr, DecidableEq

/-- `self_evaluation_node`: reads `state.get("guardian_response", "")`;
an empty value returns `won_level = False` without calling the judge.
The second component records whether the judge model was invoked. -/
def self_evaluation_node (st : AIGameState) (judge : JudgeOutcome) :
    SelfEvalUpdate × Bool :=
  let guardian_response := st.guardian_response.getD ""
  if guardian_response = "" then
    ({ workflow_step := "no_response_to_evaluate", won_level := false }, false)
  else
    match judge with
    | .ok agreed => ({ workflow_step := "self_evaluated", won_level := agreed }, true)
    | .exn _ => ({ workflow_step := "evaluation_error", won_level := false }, true)

/-- LangGraph merge of a `self_evaluation_node` update. -/
def applySelfEvalUpdate (st : AIGameState) (u : SelfEvalUpdate) : AIGameState :=
  { st with
    workflow_step := some u.workflow_step
    won_level := some u.won_level }

/-! ## Evaluation node (src/app/ai_game/nodes/evaluation_node.py) -/

/-- Outcome of the judge call in `evaluation_node`, whose two `except`
clauses distinguish `json.JSONDecodeError` from any other exception. -/
inductive EvalCallOutcome where
  | ok (passed : Bool)
  | jsonDecodeError (msg : String)
  | exn (msg : String)
  deriving Repr, DecidableEq

/-- The partial state update returned by `evaluation_node`. -/
structure EvalUpdate where
  workflow_step : String
  won_level : Bool
  deriving Repr, DecidableEq

/-- `evaluation_node`: empty history short-circuits; a parse failure or any
other exception falls back to `won_level = False`. -/
def evaluation_node (messages : List String) (call : EvalCallOutcome) :
    EvalUpdate :=
  if messages.isEmpty then
    { workflow_step := "no_message", won_level := false }
  else
    match call with
    | .ok passed => { workflow_step := "evaluated", won_level := passed }
    | .jsonDecodeError _ => { workflow_step := "evaluation_parse_error", won_level := false }
    | .exn _ => { workflow_step := "evaluation_error", won_level := false }

/-! ## Update-state node (src/app/ai_game/nodes/update_state_node.py lines 69-118)

Effect on the stored user row: `won_level` with `current_level + 1 >
MAX_LEVELS` calls `mark_as_won` (level untouched, `won := True`);
`won_level` otherwise calls `update_level(current_level + 1)`; a failed
attempt leaves the row as `add_message` left it. -/

/-- The level-progression part of `update_state_node`, applied to the user
row; `context_level` is `runtime.context.level`, the level loaded from the
store when the turn's context was built. -/
def update_state_progress (context_level : Nat) (won_level : Bool)
    (s : UserState) (now : Int) : UserState :=
  if won_level then
    if context_level + 1 > MAX_LEVELS then
      mark_as_won_user s now
    else
      update_level s (context_level + 1) now
  else
    s

/-- Whole-turn effect of `update_state_node` on the user row: the last user
message is saved via `add_message` (incrementing `attempts`), then the
progression runs with `context_level = s.level`. -/
def update_state_turn (s : UserState) (msg : String) (won_level : Bool)
    (now : Int) : UserState :=
  update_state_progress s.level won_level (add_message s "user" msg now) now

/-! ## Reachable session states

The session-mutating operations actually invoked on a user row by the
running system: creation (`create_new_user`), an evaluated turn
(`update_state_turn`), recording an assistant message (`add_message` with
role `"assistant"`, as in `GameService`), a session resume
(`start_new_session`), and the warning sweep's `mark_session_warned`. -/

/-- Session states reachable through the store operations the application
performs. -/
inductive ReachableUser : UserState → Prop where
  | created (phone : String) (now : Int) :
      ReachableUser (create_new_user phone now)
  | turn {s : UserState} (msg : String) (won_level : Bool) (now : Int) :
      ReachableUser s → ReachableUser (update_state_turn s msg won_level now)
  | assistantMessage {s : UserState} (content : String) (now : Int) :
      ReachableUser s → ReachableUser (add_message s "assistant" content now)
  | resumed {s : UserState} (now : Int) :
      ReachableUser s → ReachableUser (start_new_session s now)
  | warned {s : UserState} :
      ReachableUser s → ReachableUser (mark_session_warned s)

/-! ## The spec's pure advance function (spec §4.3)

`spec_advance` is written from the specification text, to be compared with
the code-derived progression. -/

/-- The spec's `advance(level, attempts, passed, maxLevel)` (the `attempts`
argument does not influence the result and is omitted):
not passed keeps the level; passed below `maxLevel` increments; passed at
`maxLevel` keeps `maxLevel` and sets `won`. -/
def spec_advance (level : Nat) (passed : Bool) (maxLevel : Nat) : Nat × Bool :=
  if passed then
    if level < maxLevel then (level + 1, false)
    else (maxLevel, true)
  else
    (level, false)

/-! ## Helper lemmas -/

theorem starts_with_iff (n h : List Char) :
    starts_with n h = true ↔ ∃ t, h = n ++ t := by
  induction n generalizing h with
  | nil => simp [starts_with]
  | cons a as ih =>
    cases h with
    | nil => simp [starts_with]
    | cons b bs =>
      simp only [starts_with, Bool.and_eq_true, beq_iff_eq, ih, List.cons_append]
      constructor
      · rintro ⟨rfl, t, rfl⟩
        exact ⟨t, rfl⟩
      · rintro ⟨t, hbt⟩
        injection hbt with h1 h2
        exact ⟨h1.symm, t, h2⟩

theorem contains_sub_iff (n h : List Char) :
    contains_sub n h = true ↔ ∃ p t, h = p ++ n ++ t := by
  induction h with
  | nil =>
    constructor
    · intro hE
      have hn : n = [] := by
        simpa [contains_sub, List.isEmpty_iff] using hE
      exact ⟨[], [], by simp [hn]⟩
    · rintro ⟨p, t, ht⟩
      obtain ⟨h3, h4⟩ := List.append_eq_nil.mp ht.symm
      obtain ⟨h5, h6⟩ := List.append_eq_nil.mp h3
      simp [contains_sub, h6]
  | cons c cs ih =>
    simp only [contains_sub, Bool.or_eq_true, starts_with_iff, ih]
    constructor
    · rintro (⟨t, ht⟩ | ⟨p, t, ht⟩)
      · exact ⟨[], t, by simpa using ht⟩
      · exact ⟨c :: p, t, by simp [ht]⟩
    · rintro ⟨p, t, ht⟩
      cases p with
      | nil => exact Or.inl ⟨t, by simpa using ht⟩
      | cons x xs =>
        simp only [List.cons_append, List.append_assoc, List.cons.injEq] at ht
        exact Or.inr ⟨xs, t, by simp [ht.2]⟩

theorem find_replace_user (users : List UserState) (phone : String)
    (u' : UserState) (h : (u'.phone_number == phone) = true) :
    (replace_user users phone u').find? (fun v => v.phone_number == phone) =
      if (users.find? (fun v => v.phone_number == phone)).isSome then some u'
      else none := by
  induction users with
  | nil => simp [replace_user]
  | cons v vs ih =>
    by_cases hv : (v.phone_number == phone) = true
    · simp [replace_user, List.find?, hv, h]
    · simp only [replace_user, List.map_cons, List.map] at ih ⊢
      rw [if_neg hv]
      rw [List.find?_cons_of_neg _ (by simpa using hv),
        List.find?_cons_of_neg _ (by simpa using hv)]
      exact ih

theorem find_append_of_none {α : Type} (p : α → Bool) (l1 l2 : List α)
    (h : l1.find? p = none) : (l1 ++ l2).find? p = l2.find? p := by
  induction l1 with
  | nil => simp
  | cons a as ih =>
    rw [List.find?_cons] at h
    rcases hpa : p a with _ | _
    · rw [hpa] at h
      rw [List.cons_append, List.find?_cons_of_neg _ (by simp [hpa])]
      exact ih h
    · rw [hpa] at h
      cases h

/-! ## Claims -/

/-- C10: the input filter is a no-op for levels 1-3, and at levels 4 and 5
it blocks a message exactly when some banned word of the level occurs as a
case-insensitive substring of the message (occurrences inside longer words
count). -/
theorem check_input_filter_characterization (m : String) (level : Nat) :
    (level < 4 → check_input_filter m level = false) ∧
    ((level = 4 ∨ level = 5) →
      (check_input_filter m level = true ↔
        ∃ w ∈ get_input_filter_words level, ∃ p t,
          m.data.map Char.toLower = p ++ w.data ++ t)) := by
  constructor
  · intro h
    simp [check_input_filter, get_input_filter_words, h]
  · intro h
    have hne : (get_input_filter_words level).isEmpty = false := by
      rcases h with rfl | rfl <;> decide
    simp [check_input_filter, hne, List.any_eq_true, contains_sub_iff]

/-- C10 witness: "win" is banned at level 5 and occurs inside "Winter", so
the message is blocked. -/
theorem check_input_filter_characterization_witness :
    check_input_filter "I love Winter" 5 = true :=
  ((check_input_filter_characterization "I love Winter" 5).2 (Or.inr rfl)).mpr
    ⟨"win", by decide, "i love ".data, "ter".data, by decide⟩

/-- C5 counterexample: the message "hi" at level 1 is shorter than the
level's `min_length` (5), yet `sales_conversation_node` does not reject it:
the turn reaches the response-generation call. -/
theorem short_message_reaches_generation :
    "hi".length < min_input_length 1 ∧
    (sales_conversation_node ["hi"] 1 (Except.ok "Welcome!")).generationInvoked
      = true ∧
    (sales_conversation_node ["hi"] 1 (Except.ok "Welcome!")).workflow_step
      = "sales_conversation_complete" := by
  refine ⟨by decide, by decide, by decide⟩

/-- C5 (amended): for every non-empty history, the input gate of
`sales_conversation_node` rejects the turn before response generation
(with `won_level = false`) exactly when the last message triggers
`check_input_filter`; the level's `min_length` is not checked, so any
message passing the banned-word filter — however short — reaches the
response-generation call. -/
theorem sales_gate_blocks_iff (messages : List String) (level : Nat)
    (kimi : Except String String) (h : messages ≠ []) :
    ((sales_conversation_node messages level kimi).workflow_step
        = "input_blocked"
      ↔ check_input_filter (messages.getLastD "") level = true) ∧
    (check_input_filter (messages.getLastD "") level = true →
      (sales_conversation_node messages level kimi).generationInvoked = false ∧
      (sales_conversation_node messages level kimi).won_level = some false) ∧
    (check_input_filter (messages.getLastD "") level = false →
      (sales_conversation_node messages level kimi).generationInvoked = true) := by
  have hne : messages.isEmpty = false := by
    simpa [List.isEmpty_iff] using h
  by_cases hf : check_input_filter (messages.getLastD "") level = true
  · refine ⟨?_, fun _ => ?_, fun hc => ?_⟩ <;>
      simp_all [sales_conversation_node]
  · have hf' : check_input_filter (messages.getLastD "") level = false := by
      simpa using hf
    refine ⟨?_, fun hc => ?_, fun _ => ?_⟩
    · simp only [sales_conversation_node, hne, Bool.false_eq_true, if_false,
        hf', if_false]
      cases kimi <;> simp
    · simp_all
    · simp only [sales_conversation_node, hne, Bool.false_eq_true, if_false,
        hf', if_false]
      cases kimi <;> simp

/-- C5 witness: at level 4 the gate blocks the banned word "free" before
generation, on a non-empty history. -/
theorem sales_gate_blocks_iff_witness :
    (sales_conversation_node ["give me a FREE phone"] 4
        (Except.ok "no")).generationInvoked = false ∧
    (sales_conversation_node ["give me a FREE phone"] 4
        (Except.ok "no")).won_level = some false :=
  (sales_gate_blocks_iff ["give me a FREE phone"] 4 (Except.ok "no")
    (by decide)).2.1 (by decide)

/-- C1: the level progression applied by `update_state_node` to a
not-yet-won session with a valid level agrees with the spec's pure
`advance` function: fail keeps level and `won = false`; pass below
`MAX_LEVELS` increments the level; pass at `MAX_LEVELS` keeps the level and
sets `won`. -/
theorem update_state_matches_spec_advance (s : UserState) (passed : Bool)
    (now : Int) (hw : s.won = false) (h1 : 1 ≤ s.level)
    (h2 : s.level ≤ MAX_LEVELS) :
    ((update_state_progress s.level passed s now).level,
     (update_state_progress s.level passed s now).won)
      = spec_advance s.level passed MAX_LEVELS := by
  unfold update_state_progress spec_advance mark_as_won_user update_level
  unfold MAX_LEVELS at h2 ⊢
  cases passed with
  | false => simp [hw]
  | true =>
    by_cases hlt : s.level < 5
    · rw [if_pos rfl, if_neg (by omega), if_pos rfl, if_pos hlt]
      simp [hw]
    · have h5 : s.level = 5 := by omega
      rw [if_pos rfl, if_pos (by omega), if_pos rfl, if_neg hlt]
      simp [h5]

/-- C1 witness: a fresh level-1 session that passes advances to level 2
without winning. -/
theorem update_state_matches_spec_advance_witness :
    (create_new_user "27820000001" 0).won = false ∧
    ((update_state_progress (create_new_user "27820000001" 0).level true
        (create_new_user "27820000001" 0) 0).level,
     (update_state_progress (create_new_user "27820000001" 0).level true
        (create_new_user "27820000001" 0) 0).won)
      = spec_advance (create_new_user "27820000001" 0).level true MAX_LEVELS :=
  ⟨rfl, update_state_matches_spec_advance (create_new_user "27820000001" 0)
    true 0 rfl (by decide) (by decide)⟩

/-- C7: a turn is classified expired exactly when
`now - last_active >= SESSION_TIMEOUT_MINUTES` (180 seconds), and the
resume (`start_new_session`) sets only the lifecycle-window fields,
preserving `level`, `attempts`, `won` and the message log. -/
theorem session_expiry_and_resume (s : UserState) (now : Int) :
    (is_session_expired s now = true ↔
      (SESSION_TIMEOUT_MINUTES : Int) * 60 ≤ now - s.last_active) ∧
    (start_new_session s now).session_started_at = now ∧
    (start_new_session s now).last_active = now ∧
    (start_new_session s now).session_warned = false ∧
    (start_new_session s now).session_expired = false ∧
    (start_new_session s now).level = s.level ∧
    (start_new_session s now).attempts = s.attempts ∧
    (start_new_session s now).won = s.won ∧
    (start_new_session s now).messages = s.messages ∧
    (start_new_session s now).phone_number = s.phone_number ∧
    (start_new_session s now).created_at = s.created_at := by
  refine ⟨?_, rfl, rfl, rfl, rfl, rfl, rfl, rfl, rfl, rfl, rfl⟩
  unfold is_session_expired SESSION_TIMEOUT_MINUTES
  rw [decide_eq_true_eq, ge_iff_le, le_div_iff₀ (by norm_num : (0:ℚ) < 60)]
  constructor
  · intro h
    have h' : ((3 * 60 : Int) : ℚ) ≤ ((now - s.last_active : Int) : ℚ) := by
      push_cast
      push_cast at h
      linarith
    exact_mod_cast h'
  · intro h
    have h' : ((3 * 60 : Int) : ℚ) ≤ ((now - s.last_active : Int) : ℚ) := by
      exact_mod_cast h
    push_cast at h'
    push_cast
    linarith

/-- A user row sitting exactly on the warning boundary at `now = 120`. -/
def u_boundary : UserState :=
  { phone_number := "27000000001"
    level := 3
    won := false
    attempts := 7
    created_at := 0
    last_active := 0
    session_started_at := 0
    session_warned := false
    session_expired := false
    messages := [] }

/-- C6 counterexample: a user whose inactivity equals the warning threshold
exactly (`now - last_active = 2 minutes`), unwarned and not won, is NOT
returned by the sweep — the lower boundary is exclusive in the code, while
the claim makes it inclusive. -/
theorem sweep_misses_lower_boundary :
    (SESSION_WARNING_MINUTES : Int) * 60 ≤ (120 : Int) - (u_boundary).last_active ∧
    (120 : Int) - (u_boundary).last_active < (SESSION_TIMEOUT_MINUTES : Int) * 60 ∧
    (u_boundary).session_warned = false ∧
    (u_boundary).won = false ∧
    get_inactive_users_for_warning [u_boundary] 120 SESSION_WARNING_MINUTES
      = [] := by
  refine ⟨by decide, by decide, rfl, rfl, by decide⟩

/-- C6 (amended): the warning sweep returns exactly the identities with
`warningThreshold < now - lastActiveAt <= timeoutThreshold` (lower boundary
exclusive, upper boundary inclusive — the opposite of the claimed
half-open window) whose `session_warned` and `won` flags are false. -/
theorem sweep_window_characterization (users : List UserState) (now : Int) :
    get_inactive_users_for_warning users now SESSION_WARNING_MINUTES =
      (users.filter (fun u =>
        decide ((SESSION_WARNING_MINUTES : Int) * 60 < now - u.last_active) &&
        decide (now - u.last_active ≤ (SESSION_TIMEOUT_MINUTES : Int) * 60) &&
        !u.session_warned &&
        !u.won)).map (fun u => u.phone_number) := by
  unfold get_inactive_users_for_warning
  dsimp only
  congr 1
  apply List.filter_congr
  intro u _
  have e1 : decide (u.last_active < now - (SESSION_WARNING_MINUTES : Int) * 60)
      = decide ((SESSION_WARNING_MINUTES : Int) * 60 < now - u.last_active) := by
    simp only [SESSION_WARNING_MINUTES]
    refine decide_eq_decide.mpr ?_
    constructor <;> intro hx <;> omega
  have e2 : decide (now - (SESSION_TIMEOUT_MINUTES : Int) * 60 ≤ u.last_active)
      = decide (now - u.last_active ≤ (SESSION_TIMEOUT_MINUTES : Int) * 60) := by
    simp only [SESSION_TIMEOUT_MINUTES]
    refine decide_eq_decide.mpr ?_
    constructor <;> intro hx <;> omega
  rw [e1, e2]

/-- C3: outcome evaluation is fail-closed — when the judging call raises an
exception (including a timeout) or its output fails to parse, both
`evaluation_node` and `self_evaluation_node` resolve the turn's
`won_level` to `false`. -/
theorem evaluation_fail_closed (msgs : List String) (st : AIGameState)
    (e1 e2 e3 : String) :
    (evaluation_node msgs (.jsonDecodeError e1)).won_level = false ∧
    (evaluation_node msgs (.exn e2)).won_level = false ∧
    (self_evaluation_node st (.exn e3)).1.won_level = false := by
  refine ⟨?_, ?_, ?_⟩
  · unfold evaluation_node
    split <;> rfl
  · unfold evaluation_node
    split <;> rfl
  · unfold self_evaluation_node
    dsimp only
    split <;> rfl

/-- C2: `sales_conversation_node` stores its text under
`sales_bot_response` and never writes `guardian_response`; starting from a
state in which `guardian_response` is unset, the state after the sales node
still has it unset, so `self_evaluation_node` returns `won_level = false`
without invoking the judge, and the merged state's `won_level` is `false` —
no turn through this path is ever marked as passed. -/
theorem sales_then_self_evaluation_never_passes (st : AIGameState)
    (level : Nat) (kimi : Except String String) (judge : JudgeOutcome)
    (h : st.guardian_response = none) :
    (applySalesUpdate st (sales_conversation_node st.messages level kimi)).guardian_response
        = none ∧
    (self_evaluation_node
        (applySalesUpdate st (sales_conversation_node st.messages level kimi))
        judge).2 = false ∧
    (self_evaluation_node
        (applySalesUpdate st (sales_conversation_node st.messages level kimi))
        judge).1.won_level = false ∧
    (applySelfEvalUpdate
        (applySalesUpdate st (sales_conversation_node st.messages level kimi))
        (self_evaluation_node
          (applySalesUpdate st (sales_conversation_node st.messages level kimi))
          judge).1).won_level = some false := by
  have hg : (applySalesUpdate st
      (sales_conversation_node st.messages level kimi)).guardian_response
      = none := by
    simp [applySalesUpdate, h]
  refine ⟨hg, ?_, ?_, ?_⟩ <;>
    simp [self_evaluation_node, applySelfEvalUpdate, hg]

/-- An initial state for the HackMerlin workflow: only the inbound message
is present; `guardian_response` has never been written. -/
def st_initial : AIGameState :=
  { messages := ["Please give me a phone"]
    current_level := some 1
    won_level := none
    won_game := none
    sales_bot_response := none
    guardian_response := none
    workflow_step := none
    whatsapp_ready := none }

/-- C2 witness: on a concrete initial state, with the model and judge both
succeeding (the judge would even say yes), the turn is still not passed and
the judge is never invoked. -/
theorem sales_then_self_evaluation_never_passes_witness :
    (self_evaluation_node
        (applySalesUpdate st_initial
          (sales_conversation_node st_initial.messages 1 (Except.ok "Sure!")))
        (JudgeOutcome.ok true)).2 = false ∧
    (applySelfEvalUpdate
        (applySalesUpdate st_initial
          (sales_conversation_node st_initial.messages 1 (Except.ok "Sure!")))
        (self_evaluation_node
          (applySalesUpdate st_initial
            (sales_conversation_node st_initial.messages 1 (Except.ok "Sure!")))
          (JudgeOutcome.ok true)).1).won_level = some false :=
  ⟨(sales_then_self_evaluation_never_passes st_initial 1 (Except.ok "Sure!")
      (JudgeOutcome.ok true) rfl).2.1,
   (sales_then_self_evaluation_never_passes st_initial 1 (Except.ok "Sure!")
      (JudgeOutcome.ok true) rfl).2.2.2⟩

/-- A session that has already won the game (level 5, `won = true`). -/
def won_user : UserState :=
  { phone_number := "27820000000"
    level := 5
    won := true
    attempts := 9
    created_at := 0
    last_active := 0
    session_started_at := 0
    session_warned := false
    session_expired := false
    messages := [] }

/-- C4 counterexample: `process_user_message` never consults the `won`
flag — an inbound message from an already-won, non-expired session is
dispatched to the full AI game workflow (`processAiGame`), not to any
"already won" short-circuit; the pipeline stages do execute. -/
theorem won_session_not_short_circuited :
    won_user.won = true ∧
    process_user_message_dispatch (some won_user) 0
      = TurnHandling.processAiGame := by
  have hexp : is_session_expired won_user 0 = false := by
    simp only [is_session_expired, won_user, SESSION_TIMEOUT_MINUTES]
    norm_num
  exact ⟨rfl, by simp [process_user_message_dispatch, hexp]⟩

/-- C4 (amended): the dispatcher branches only on user existence and
session expiry; every message from an existing, non-expired session — the
`won` flag notwithstanding — is processed through the AI game workflow.
There is no canned "already won" outcome. -/
theorem dispatch_ignores_won_flag (s : UserState) (now : Int)
    (h : is_session_expired s now = false) :
    process_user_message_dispatch (some s) now = TurnHandling.processAiGame := by
  simp [process_user_message_dispatch, h]

/-- C4 amended-claim witness: the already-won session again. -/
theorem dispatch_ignores_won_flag_witness :
    process_user_message_dispatch (some won_user) 60
      = TurnHandling.processAiGame :=
  dispatch_ignores_won_flag won_user 60 (by
    simp only [is_session_expired, won_user, SESSION_TIMEOUT_MINUTES]
    norm_num)

/-- A complete winning run: a fresh session that passes all five levels in
five evaluated turns. -/
def winning_run : UserState :=
  update_state_turn
    (update_state_turn
      (update_state_turn
        (update_state_turn
          (update_state_turn (create_new_user "27830000000" 0) "a" true 0)
          "b" true 0)
        "c" true 0)
      "d" true 0)
    "e" true 0

/-- C9 counterexample: the state reached by winning the final level is a
reachable session state with `won = true` and `level = MAX_LEVELS` (5) —
not `MAX_LEVELS + 1` as the claim asserts. -/
theorem won_state_level_is_max :
    ReachableUser winning_run ∧
    winning_run.won = true ∧
    winning_run.level = MAX_LEVELS ∧
    winning_run.level ≠ MAX_LEVELS + 1 := by
  refine ⟨?_, by decide, by decide, by decide⟩
  unfold winning_run
  exact .turn "e" true 0 (.turn "d" true 0 (.turn "c" true 0
    (.turn "b" true 0 (.turn "a" true 0 (.created "27830000000" 0)))))

/-- C9 (amended): in every reachable session state,
`1 <= level <= MAX_LEVELS`, and `won = true` implies `level = MAX_LEVELS`
(the level is never incremented past the last real level; `won` is the
terminal signal); the invariant is preserved by every session-mutating
operation, including `mark_as_won`. -/
theorem reachable_user_invariant (s : UserState) (h : ReachableUser s) :
    1 ≤ s.level ∧ s.level ≤ MAX_LEVELS ∧ (s.won = true → s.level = MAX_LEVELS) := by
  induction h with
  | created phone now => simp [create_new_user, MAX_LEVELS]
  | turn msg won_level now _ ih =>
    obtain ⟨ih1, ih2, ih3⟩ := ih
    unfold MAX_LEVELS at ih2 ih3 ⊢
    rename_i s' _
    show 1 ≤ (update_state_turn s' msg won_level now).level ∧ _
    unfold update_state_turn update_state_progress
    simp only [MAX_LEVELS]
    cases won_level with
    | false =>
      simp only [Bool.false_eq_true, if_false]
      simpa [add_message] using ⟨ih1, ih2, ih3⟩
    | true =>
      by_cases hgt : s'.level + 1 > 5
      · rw [if_pos rfl, if_pos hgt]
        simp only [mark_as_won_user, add_message]
        refine ⟨by simpa using ih1, by simpa using ih2, fun _ => ?_⟩
        simpa using (by omega : s'.level = 5)
      · rw [if_pos rfl, if_neg hgt]
        simp only [update_level, add_message]
        refine ⟨by omega, by simpa using (by omega : s'.level + 1 ≤ 5),
          fun hw => ?_⟩
        exfalso
        simp only [if_pos (by rfl : ("user" == "user") = true)] at hw
        have hw' : s'.won = true := by simpa using hw
        have := ih3 hw'
        omega
  | assistantMessage content now _ ih =>
    have hr : ("assistant" == "user") = false := by decide
    simpa [add_message, hr] using ih
  | resumed now _ ih =>
    simpa [start_new_session] using ih
  | warned _ ih =>
    simpa [mark_session_warned] using ih

/-- C9 amended-claim witness: the invariant at a freshly created session. -/
theorem reachable_user_invariant_witness :
    1 ≤ (create_new_user "27840000000" 0).level ∧
    (create_new_user "27840000000" 0).level ≤ MAX_LEVELS ∧
    ((create_new_user "27840000000" 0).won = true →
      (create_new_user "27840000000" 0).level = MAX_LEVELS) :=
  reachable_user_invariant (create_new_user "27840000000" 0)
    (ReachableUser.created "27840000000" 0)

/-- C8: winner recording is idempotent — starting from a store holding the
user and no winner row for them, a second `mark_as_won` before any reset
succeeds, leaves the winner table exactly as the first call left it (hence
the same `rank`), and the table holds exactly one winner row for that
identity. -/
theorem mark_as_won_idempotent (st : StoreState) (phone : String)
    (u : UserState) (t1 t2 : Int)
    (hu : st.users.find? (fun v => v.phone_number == phone) = some u)
    (hw : st.winners.find? (fun w => w.phone_number == phone) = none) :
    (mark_as_won (mark_as_won st phone t1).1 phone t2).2 = true ∧
    (mark_as_won (mark_as_won st phone t1).1 phone t2).1.winners
      = (mark_as_won st phone t1).1.winners ∧
    ((mark_as_won st phone t1).1.winners.filter
        (fun w => w.phone_number == phone)).length = 1 := by
  have hp : (u.phone_number == phone) = true := by
    simpa using List.find?_some hu
  have h1 : mark_as_won st phone t1 =
      ({ users := replace_user st.users phone (mark_as_won_user u t1),
         winners := st.winners ++
           [{ phone_number := phone, completed_at := t1,
              total_attempts := u.attempts,
              time_taken_seconds := t1 - u.created_at,
              rank := st.winners.length + 1 }] }, true) := by
    unfold mark_as_won
    rw [hu, hw]
  have hu2 : (replace_user st.users phone (mark_as_won_user u t1)).find?
      (fun v => v.phone_number == phone) = some (mark_as_won_user u t1) := by
    rw [find_replace_user st.users phone (mark_as_won_user u t1)
      (by simpa [mark_as_won_user] using hp)]
    simp [hu]
  have hw2 : (st.winners ++
      [({ phone_number := phone, completed_at := t1,
          total_attempts := u.attempts,
          time_taken_seconds := t1 - u.created_at,
          rank := st.winners.length + 1 } : Winner)]).find?
      (fun w => w.phone_number == phone) =
      some ({ phone_number := phone, completed_at := t1,
              total_attempts := u.attempts,
              time_taken_seconds := t1 - u.created_at,
              rank := st.winners.length + 1 } : Winner) := by
    rw [find_append_of_none _ _ _ hw]
    simp
  refine ⟨?_, ?_, ?_⟩
  · rw [h1]
    unfold mark_as_won
    rw [hu2, hw2]
  · rw [h1]
    unfold mark_as_won
    rw [hu2, hw2]
  · rw [h1]
    have hnil : st.winners.filter (fun w => w.phone_number == phone) = [] := by
      rw [List.filter_eq_nil_iff]
      intro a ha
      have := List.find?_eq_none.mp hw a ha
      simpa using this
    simp [List.filter_append, hnil]

/-- A store holding one active level-5 session and no winners yet. -/
def store8 : StoreState :=
  { users :=
      [{ phone_number := "27850000000"
         level := 5
         won := false
         attempts := 9
         created_at := 0
         last_active := 100
         session_started_at := 0
         session_warned := false
         session_expired := false
         messages := [] }]
    winners := [] }

/-- C8 witness: the double call on the concrete store. -/
theorem mark_as_won_idempotent_witness :
    (mark_as_won (mark_as_won store8 "27850000000" 100).1 "27850000000" 200).2
      = true ∧
    (mark_as_won (mark_as_won store8 "27850000000" 100).1 "27850000000" 200).1.winners
      = (mark_as_won store8 "27850000000" 100).1.winners ∧
    ((mark_as_won store8 "27850000000" 100).1.winners.filter
        (fun w => w.phone_number == "27850000000")).length = 1 :=
  mark_as_won_idempotent store8 "27850000000"
    { phone_number := "27850000000", level := 5, won := false, attempts := 9,
      created_at := 0, last_active := 100, session_started_at := 0,
      session_warned := false, session_expired := false, messages := [] }
    100 200 (by decide) (by decide)

end Indaba
